import Mathlib

/-!
Shallow embedding of `src/src/cdk-experimental/scrolling/virtual-scroll-viewport.ts`
(class `CdkVirtualScrollViewport`).

The TypeScript class is single-threaded and event-driven.  We model it as a
state record `VState` together with step functions that return the new state
and an ordered log of observable events (stream emissions, change-detection
marks, physical scroll writes, and calls out to the injected scroll strategy).

External collaborators are modelled at their interface boundary:
- the scroll strategy is observed through the events `contentRendered`,
  `dataLengthChanged` and `contentScrolled` (the calls the viewport makes);
- the DomSanitizer call `bypassSecurityTrustStyle` wraps the transform string
  without changing its identity, so the stored transform is the string itself
  (field `renderedContentTransform : Option String`, `none` standing for the
  initially undefined TS field);
- the data source (`CdkVirtualForOf`) is an opaque id; its `dataStream`
  emissions are delivered as `Act.dataEmit len` carrying `data.length`;
- the Angular scheduling hooks are made explicit: `ngDoCheck` is the flush of
  the pending scroll offset, and `Act.stabilize` is one check cycle becoming
  stable (`ngDoCheck` runs, then `NgZone.onStable` fires, then the queued
  `Promise.resolve` microtasks run, firing `onContentRendered` once per
  one-shot subscription that `setRenderedRange` registered).
-/

namespace VirtualScroll

/-- Type `ListRange` from the cdk collections package: a half-open index interval. -/
structure ListRange where
  start : Int
  «end» : Int
deriving DecidableEq, Repr

/-- Source `rangesEqual`: value equality on `start` and `end`. -/
def rangesEqual (r1 r2 : ListRange) : Bool :=
  r1.start == r2.start && r1.«end» == r2.«end»

/-- The `orientation` input of the viewport. -/
inductive Orientation
  | horizontal
  | vertical
deriving DecidableEq, Repr

/-- The `to` argument of `setRenderedContentOffset` (source default: to-start). -/
inductive Edge
  | toStart
  | toEnd
deriving DecidableEq, Repr

/-- The transform string built by `setRenderedContentOffset` before the guard:
axis is X for horizontal and Y for vertical; the base component is
`translate<axis>(<offset>px)` and edge to-end appends ` translate<axis>(-100%)`. -/
def computeTransform (o : Orientation) (offset : Int) (edge : Edge) : String :=
  let axis := match o with
    | .horizontal => "X"
    | .vertical => "Y"
  let transform := "translate" ++ axis ++ "(" ++ toString offset ++ "px)"
  match edge with
  | .toEnd => transform ++ " translate" ++ axis ++ "(-100%)"
  | .toStart => transform

/-- Observable effects of the viewport, in the order they happen. -/
inductive Event
  /-- `_renderedRangeSubject.next(range)`: emission on `renderedRangeStream`. -/
  | rangeEmit (r : ListRange)
  /-- `_changeDetectorRef.markForCheck()`: the viewport marks for re-render. -/
  | markForCheck
  /-- Physical scroll position assignment (`scrollLeft` / `scrollTop`). -/
  | scrollWrite (v : Int)
  /-- Call to `_scrollStrategy.onContentRendered()`. -/
  | contentRendered
  /-- Call to `_scrollStrategy.onDataLengthChanged()`. -/
  | dataLengthChanged
  /-- Call to `_scrollStrategy.onContentScrolled()`. -/
  | contentScrolled
deriving DecidableEq, Repr

def isScrollWrite : Event → Bool
  | .scrollWrite _ => true
  | _ => false

def isRangeEmit : Event → Bool
  | .rangeEmit _ => true
  | _ => false

/-- The mutable state of a `CdkVirtualScrollViewport` instance, together with
the subscription bookkeeping that the RxJS operators maintain for it:
`lengthSubActive` is the `dataStream` subscription made in `attach` (torn down
by `takeUntil(_detachedSubject)`), `scrollSubActive` is the `fromEvent` scroll
subscription made in `ngOnInit` (it has no teardown in the source), and
`scheduledRendered` counts the `onStable.pipe(take(1))` one-shot subscriptions
registered by `setRenderedRange` that have not fired yet. -/
structure VState where
  orientation : Orientation
  totalContentSize : Int
  renderedContentTransform : Option String
  renderedRange : ListRange
  dataLength : Nat
  viewportSize : Int
  pendingScrollOffset : Option Int
  forOf : Option Nat
  lengthSubActive : Bool
  scrollSubActive : Bool
  scheduledRendered : Nat
  destroyed : Bool
deriving DecidableEq, Repr

/-- Field initializers of the class: sizes 0, range `{start: 0, end: 0}`,
transform and pending offset undefined, nothing attached or subscribed. -/
def initState (o : Orientation) : VState where
  orientation := o
  totalContentSize := 0
  renderedContentTransform := none
  renderedRange := ⟨0, 0⟩
  dataLength := 0
  viewportSize := 0
  pendingScrollOffset := none
  forOf := none
  lengthSubActive := false
  scrollSubActive := false
  scheduledRendered := 0
  destroyed := false

/-- The four mutation methods callable within one check cycle. -/
inductive Call
  | setRenderedRange (r : ListRange)
  | setTotalContentSize (size : Int)
  | setRenderedContentOffset (offset : Int) (edge : Edge)
  | setScrollOffset (offset : Int)
deriving DecidableEq, Repr

/-- One mutation method call, as written in the source:
- `setRenderedRange`: guarded by `rangesEqual`; on change it assigns the new
  range, emits it on the range subject, marks for check, and registers an
  `onStable` one-shot that will call `onContentRendered` in a microtask;
- `setTotalContentSize`: guarded by `!=` on the stored size; on change it
  assigns and marks for check;
- `setRenderedContentOffset`: computes the transform, guarded by `!=` against
  the stored transform; on change it stores the (sanitizer-wrapped) transform
  and marks for check;
- `setScrollOffset`: unconditionally stores the pending offset and marks for
  check; the physical write is deferred to `ngDoCheck`. -/
def applyCall (s : VState) (c : Call) : VState × List Event :=
  match c with
  | .setRenderedRange r =>
      if rangesEqual s.renderedRange r then (s, [])
      else ({s with renderedRange := r, scheduledRendered := s.scheduledRendered + 1},
            [Event.rangeEmit r, Event.markForCheck])
  | .setTotalContentSize size =>
      if s.totalContentSize ≠ size then
        ({s with totalContentSize := size}, [Event.markForCheck])
      else (s, [])
  | .setRenderedContentOffset offset edge =>
      let transform := computeTransform s.orientation offset edge
      if s.renderedContentTransform ≠ some transform then
        ({s with renderedContentTransform := some transform}, [Event.markForCheck])
      else (s, [])
  | .setScrollOffset offset =>
      ({s with pendingScrollOffset := some offset}, [Event.markForCheck])

/-- A sequence of mutation calls within one cycle, with the concatenated log. -/
def runCalls (s : VState) : List Call → VState × List Event
  | [] => (s, [])
  | c :: cs =>
      ((runCalls (applyCall s c).1 cs).1,
       (applyCall s c).2 ++ (runCalls (applyCall s c).1 cs).2)

/-- Source `ngDoCheck`: if a scroll offset is pending, write it to the physical
scroll position.  The source never resets `_pendingScrollOffset` to null. -/
def ngDoCheck (s : VState) : VState × List Event :=
  match s.pendingScrollOffset with
  | some v => (s, [Event.scrollWrite v])
  | none => (s, [])

/-- The current check cycle becoming stable: `ngDoCheck` flushes the pending
scroll write, then `NgZone.onStable` fires, each `take(1)` one-shot registered
by `setRenderedRange` fires once and queues `onContentRendered` in a
microtask. -/
def stabilize (s : VState) : VState × List Event :=
  ({s with scheduledRendered := 0},
   (ngDoCheck s).2 ++ List.replicate s.scheduledRendered Event.contentRendered)

/-- One full check cycle: the mutation calls, then the cycle settles. -/
def runCycle (s : VState) (cs : List Call) : VState × List Event :=
  ((stabilize (runCalls s cs).1).1,
   (runCalls s cs).2 ++ (stabilize (runCalls s cs).1).2)

/-- Source `attach(forOf)`: throws when a source is already attached, otherwise
stores the reference and subscribes to its `dataStream` with
`takeUntil(_detachedSubject)`. -/
def attach (s : VState) (forOf : Nat) : Except String VState :=
  if s.forOf.isSome then
    .error "CdkVirtualScrollViewport is already attached."
  else
    .ok {s with forOf := some forOf, lengthSubActive := true}

/-- Source `detach()`: clears the reference and fires `_detachedSubject.next()`; the
only consumer of that subject is the `takeUntil` on the `dataStream`
subscription, which it tears down.  Nothing else is cancelled. -/
def detach (s : VState) : VState :=
  {s with forOf := none, lengthSubActive := false}

/-- Source `ngOnDestroy`: `detach()`, strategy detach, and completion of both
subjects. -/
def destroy (s : VState) : VState :=
  {detach s with destroyed := true}

/-- Source `ngOnInit` (after the initial `Promise.resolve()`): measures the viewport
size from the host element and subscribes to the sampled scroll events. -/
def ngOnInit (measuredSize : Int) (s : VState) : VState :=
  {s with viewportSize := measuredSize, scrollSubActive := true}

/-- The happenings the viewport reacts to between mutation calls. -/
inductive Act
  /-- A mutation method call. -/
  | call (c : Call)
  /-- The attached data stream emits data of length `len`. -/
  | dataEmit (len : Nat)
  /-- A sampled (frame-coalesced) scroll event on the host element. -/
  | scrollEvent
  /-- The check cycle settles. -/
  | stabilize
deriving DecidableEq, Repr

/-- One reaction step.  The `dataStream` handler from `attach` runs only while
its subscription is alive and calls `onDataLengthChanged` only when the
emitted length differs from the stored one; the scroll handler from `ngOnInit`
calls `onContentScrolled` while its subscription is alive. -/
def step (s : VState) : Act → VState × List Event
  | .call c => applyCall s c
  | .dataEmit len =>
      if s.lengthSubActive then
        if len ≠ s.dataLength then
          ({s with dataLength := len}, [Event.dataLengthChanged])
        else (s, [])
      else (s, [])
  | .scrollEvent =>
      if s.scrollSubActive then (s, [Event.contentScrolled]) else (s, [])
  | .stabilize => stabilize s

/-- A sequence of data stream emissions, with the concatenated log. -/
def processEmits (s : VState) : List Nat → VState × List Event
  | [] => (s, [])
  | l :: ls =>
      ((processEmits (step s (.dataEmit l)).1 ls).1,
       (step s (.dataEmit l)).2 ++ (processEmits (step s (.dataEmit l)).1 ls).2)

/-- Number of positions where the emitted length differs from the running
stored length: one per change to a distinct value. -/
def countChanges (cur : Nat) : List Nat → Nat
  | [] => 0
  | l :: ls => if l = cur then countChanges cur ls else countChanges l ls + 1

/-- The scroll offsets passed to `setScrollOffset` within a call list. -/
def scrollValues (cs : List Call) : List Int :=
  cs.filterMap fun c =>
    match c with
    | .setScrollOffset v => some v
    | _ => none

/-- Whether a call is one of `setTotalContentSize` / `setRenderedContentOffset`. -/
def isSizeOrOffset : Call → Bool
  | .setTotalContentSize _ => true
  | .setRenderedContentOffset _ _ => true
  | _ => false

def isContentRendered : Event → Bool
  | .contentRendered => true
  | _ => false

def isDataLengthChanged : Event → Bool
  | .dataLengthChanged => true
  | _ => false

/-- One transform component, `translate<axis>(<amount>)`, as the spec reads
the transform string: a translation along an axis by an amount. -/
def translateComponent (axis : String) (amount : String) : String :=
  "translate" ++ axis ++ "(" ++ amount ++ ")"

theorem rangesEqual_self (r : ListRange) : rangesEqual r r = true := by
  simp [rangesEqual]

theorem applyCall_filter_scrollWrite (s : VState) (c : Call) :
    (applyCall s c).2.filter isScrollWrite = [] := by
  cases c <;> simp only [applyCall] <;>
    first
      | (split <;> simp [isScrollWrite])
      | simp [isScrollWrite]

theorem runCalls_filter_scrollWrite (cs : List Call) (s : VState) :
    (runCalls s cs).2.filter isScrollWrite = [] := by
  induction cs generalizing s with
  | nil => simp [runCalls]
  | cons c cs ih =>
      simp [runCalls, List.filter_append, applyCall_filter_scrollWrite, ih]

theorem replicate_filter_scrollWrite (n : Nat) :
    (List.replicate n Event.contentRendered).filter isScrollWrite = [] := by
  induction n with
  | zero => rfl
  | succ n ih => simp [List.replicate_succ, ih, isScrollWrite]

theorem replicate_countP_contentRendered (n : Nat) :
    (List.replicate n Event.contentRendered).countP isContentRendered = n := by
  induction n with
  | zero => rfl
  | succ n ih => simp [List.replicate_succ, List.countP_cons, ih, isContentRendered]

/-- C8: on a vertical viewport, `setRenderedContentOffset(offset, to-end)`
computes a transform of exactly two ordered components, a Y-translation by
`offset` pixels followed by a Y-translation by -100% (the content shifted back
by its own size); with edge to-start it is the single component
`translateY(<offset>px)`.  On a horizontal viewport the same holds with X. -/
theorem offset_composition (off : Int) :
    computeTransform Orientation.vertical off Edge.toEnd =
      translateComponent "Y" (toString off ++ "px") ++ " " ++
        translateComponent "Y" "-100%" ∧
    computeTransform Orientation.vertical off Edge.toStart =
      translateComponent "Y" (toString off ++ "px") ∧
    computeTransform Orientation.horizontal off Edge.toEnd =
      translateComponent "X" (toString off ++ "px") ++ " " ++
        translateComponent "X" "-100%" ∧
    computeTransform Orientation.horizontal off Edge.toStart =
      translateComponent "X" (toString off ++ "px") := by
  refine ⟨?_, ?_, ?_, ?_⟩ <;>
    simp [computeTransform, translateComponent, String.append_assoc]

/-- C9: `detach` is a total function (it cannot raise), it clears the
data-source reference, repeating it changes nothing, and calling it after
`destroy` leaves the destroyed state unchanged with the reference still
cleared. -/
theorem detach_noop_safety (s : VState) :
    (detach s).forOf = none ∧
    detach (detach s) = detach s ∧
    detach (destroy s) = destroy s ∧
    (detach (destroy s)).forOf = none := by
  exact ⟨rfl, rfl, rfl, rfl⟩

/-- C3: attaching while a source is attached fails with the
already-attached error and returns no new state (the existing attachment is
untouched); after a `detach`, attaching succeeds and the resulting state
holds the new source with its length-change subscription active. -/
theorem attach_exclusivity (s : VState) (ds : Nat) :
    (s.forOf.isSome = true →
      attach s ds =
        Except.error "CdkVirtualScrollViewport is already attached.") ∧
    ∃ s2, attach (detach s) ds = Except.ok s2 ∧
      s2.forOf = some ds ∧ s2.lengthSubActive = true := by
  constructor
  · intro h
    simp [attach, h]
  · refine ⟨{detach s with forOf := some ds, lengthSubActive := true}, ?_, rfl, rfl⟩
    simp [attach, detach]

theorem attach_exclusivity_witness :
    attach {initState Orientation.vertical with
        forOf := some 3, lengthSubActive := true} 7 =
      Except.error "CdkVirtualScrollViewport is already attached." ∧
    ∃ s2, attach (detach {initState Orientation.vertical with
        forOf := some 3, lengthSubActive := true}) 7 = Except.ok s2 ∧
      s2.forOf = some 7 ∧ s2.lengthSubActive = true :=
  ⟨(attach_exclusivity _ 7).1 rfl, (attach_exclusivity _ 7).2⟩

/-- C7: `setRenderedContentOffset` is a no-op (state unchanged, no range
emission and no mark for re-render) whenever the transform computed from the
offset, edge and orientation equals the stored rendered-content transform;
in particular the second of two consecutive calls with the same arguments is
a no-op. -/
theorem setRenderedContentOffset_idempotent (s : VState) (off : Int) (e : Edge) :
    (s.renderedContentTransform = some (computeTransform s.orientation off e) →
      applyCall s (Call.setRenderedContentOffset off e) = (s, [])) ∧
    applyCall (applyCall s (Call.setRenderedContentOffset off e)).1
        (Call.setRenderedContentOffset off e) =
      ((applyCall s (Call.setRenderedContentOffset off e)).1, []) := by
  constructor
  · intro h
    simp [applyCall, h]
  · by_cases h : s.renderedContentTransform =
      some (computeTransform s.orientation off e)
    · simp [applyCall, h]
    · simp [applyCall, h]

theorem setRenderedContentOffset_idempotent_witness :
    applyCall {initState Orientation.vertical with
        renderedContentTransform :=
          some (computeTransform Orientation.vertical 5 Edge.toStart)}
      (Call.setRenderedContentOffset 5 Edge.toStart) =
      ({initState Orientation.vertical with
        renderedContentTransform :=
          some (computeTransform Orientation.vertical 5 Edge.toStart)}, []) :=
  (setRenderedContentOffset_idempotent _ 5 Edge.toStart).1 rfl

/-- C4: `setRenderedRange` with a range equal (by `rangesEqual`) to the
current one is a no-op — state unchanged, no range emission, no mark for
re-render — so two consecutive calls with the same changed range emit exactly
one range notification; and `setTotalContentSize` with the current size is
likewise a no-op. -/
theorem idempotent_setters (s : VState) (r : ListRange) (sz : Int) :
    (rangesEqual s.renderedRange r = true →
      applyCall s (Call.setRenderedRange r) = (s, [])) ∧
    (rangesEqual s.renderedRange r = false →
      (runCalls s [Call.setRenderedRange r, Call.setRenderedRange r]).2.countP
          isRangeEmit = 1) ∧
    (s.totalContentSize = sz →
      applyCall s (Call.setTotalContentSize sz) = (s, [])) := by
  refine ⟨?_, ?_, ?_⟩
  · intro h
    simp [applyCall, h]
  · intro h
    simp [runCalls, applyCall, h, rangesEqual_self, List.countP_cons,
      isRangeEmit]
  · intro h
    simp [applyCall, h]

theorem idempotent_setters_witness :
    (runCalls (initState Orientation.vertical)
        [Call.setRenderedRange ⟨0, 5⟩, Call.setRenderedRange ⟨0, 5⟩]).2.countP
      isRangeEmit = 1 ∧
    applyCall (initState Orientation.vertical) (Call.setTotalContentSize 0) =
      (initState Orientation.vertical, []) :=
  ⟨(idempotent_setters (initState Orientation.vertical) ⟨0, 5⟩ 0).2.1 (by decide),
   (idempotent_setters (initState Orientation.vertical) ⟨0, 5⟩ 0).2.2 rfl⟩

/-- C10: once `setScrollOffset` has run, the pending scroll offset is never
reset: every reaction step keeps it set, and every check cycle that settles
while offset `v` is pending performs the physical write of `v` and still
leaves `v` pending for the following cycles; `detach` and `destroy` do not
clear it either. -/
theorem pendingScrollOffset_persistent (s : VState) (a : Act) (v : Int) :
    (s.pendingScrollOffset.isSome = true →
      (step s a).1.pendingScrollOffset.isSome = true) ∧
    (s.pendingScrollOffset = some v →
      (step s Act.stabilize).2.filter isScrollWrite = [Event.scrollWrite v] ∧
      (step s Act.stabilize).1.pendingScrollOffset = some v) ∧
    (detach s).pendingScrollOffset = s.pendingScrollOffset ∧
    (destroy s).pendingScrollOffset = s.pendingScrollOffset := by
  refine ⟨?_, ?_, rfl, rfl⟩
  · intro h
    cases a with
    | call c =>
        cases c <;> simp only [step, applyCall] <;> (try split) <;> simp [h]
    | dataEmit len =>
        simp only [step]
        split <;> (try split) <;> simp [h]
    | scrollEvent =>
        simp only [step]
        split <;> simp [h]
    | stabilize =>
        simpa [step, stabilize] using h
  · intro h
    constructor
    · simp [step, stabilize, ngDoCheck, h, List.filter_append,
        replicate_filter_scrollWrite, isScrollWrite]
    · simpa [step, stabilize] using h

theorem pendingScrollOffset_persistent_witness :
    ((step {initState Orientation.vertical with pendingScrollOffset := some 42}
        (Act.call (Call.setTotalContentSize 9))).1.pendingScrollOffset.isSome
      = true) ∧
    ((step {initState Orientation.vertical with pendingScrollOffset := some 42}
        Act.stabilize).2.filter isScrollWrite = [Event.scrollWrite 42] ∧
      (step {initState Orientation.vertical with pendingScrollOffset := some 42}
        Act.stabilize).1.pendingScrollOffset = some 42) :=
  ⟨(pendingScrollOffset_persistent _ (Act.call (Call.setTotalContentSize 9)) 42).1
      rfl,
   (pendingScrollOffset_persistent _ (Act.call (Call.setTotalContentSize 9)) 42).2.1
      rfl⟩

/-- A reachable state used to refute the full-cancellation reading of detach:
the viewport initializes (scroll subscription made), attaches a source, does
one effective `setRenderedRange` (registering the content-rendered one-shot),
and then detaches before the cycle settles. -/
def detachedMidCycle : VState :=
  detach
    (applyCall
      (match attach (ngOnInit 500 (initState Orientation.vertical)) 7 with
        | Except.ok s => s
        | Except.error _ => ngOnInit 500 (initState Orientation.vertical))
      (Call.setRenderedRange ⟨0, 5⟩)).1

/-- C6 counterexample: in a reachable state where a content-rendered
notification was scheduled before `detach`, the notification still fires at
the next settle, and a scroll event after `detach` still invokes the scroll
strategy — so it is false that no listener of the viewport ever fires again
after `detach`. -/
theorem detach_cancellation_counterexample :
    (step detachedMidCycle Act.stabilize).2.countP isContentRendered = 1 ∧
    (step detachedMidCycle Act.scrollEvent).2 = [Event.contentScrolled] := by
  constructor <;> rfl

/-- C6 amended: `detach` immediately unsubscribes the data-length listener,
which never fires again; but the scroll-event subscription is untouched by
`detach` (a scroll event still notifies the strategy whenever the
subscription from `ngOnInit` exists), and every content-rendered notification
scheduled before `detach` still fires at the next settle. -/
theorem detach_partial_cancellation (s : VState) (len : Nat) :
    step (detach s) (Act.dataEmit len) = (detach s, []) ∧
    step (detach s) Act.scrollEvent =
      (detach s, if s.scrollSubActive then [Event.contentScrolled] else []) ∧
    (step (detach s) Act.stabilize).2.countP isContentRendered =
      s.scheduledRendered := by
  refine ⟨?_, ?_, ?_⟩
  · simp [step, detach]
  · simp only [step, detach]
    split <;> simp
  · cases h : s.pendingScrollOffset <;>
      simp [step, stabilize, ngDoCheck, detach, h, List.countP_append,
        replicate_countP_contentRendered, isContentRendered]

theorem ngDoCheck_countP_contentRendered (s : VState) :
    (ngDoCheck s).2.countP isContentRendered = 0 := by
  cases h : s.pendingScrollOffset <;> simp [ngDoCheck, h, isContentRendered]

theorem applyCall_sizeOffset (s : VState) (c : Call)
    (h : isSizeOrOffset c = true) :
    (applyCall s c).1.scheduledRendered = s.scheduledRendered ∧
    (applyCall s c).1.renderedRange = s.renderedRange ∧
    (applyCall s c).2.countP isContentRendered = 0 := by
  cases c with
  | setRenderedRange r => simp [isSizeOrOffset] at h
  | setScrollOffset v => simp [isSizeOrOffset] at h
  | setTotalContentSize sz =>
      simp only [applyCall]
      split <;> simp [isContentRendered]
  | setRenderedContentOffset off e =>
      simp only [applyCall]
      split <;> simp [isContentRendered]

theorem runCalls_sizeOffset (cs : List Call) (s : VState)
    (h : ∀ c ∈ cs, isSizeOrOffset c = true) :
    (runCalls s cs).1.scheduledRendered = s.scheduledRendered ∧
    (runCalls s cs).1.renderedRange = s.renderedRange ∧
    (runCalls s cs).2.countP isContentRendered = 0 := by
  induction cs generalizing s with
  | nil => simp [runCalls]
  | cons c cs ih =>
      have hc := applyCall_sizeOffset s c (h c (by simp))
      have hrest := ih (applyCall s c).1 fun d hd => h d (by simp [hd])
      simp [runCalls, List.countP_append, hc.1, hc.2.1, hc.2.2, hrest.1,
        hrest.2.1, hrest.2.2]

/-- C1: a cycle consisting of one effective `setRenderedRange` (the new range
differs from the current one) followed by any number of `setTotalContentSize`
and `setRenderedContentOffset` calls fires `onContentRendered` exactly once,
and the notification is the last event of the cycle — after every state
mutation of the cycle has been applied, in particular after the range commit. -/
theorem settle_then_notify (s : VState) (r : ListRange) (rest : List Call)
    (h1 : rangesEqual s.renderedRange r = false)
    (h2 : s.scheduledRendered = 0)
    (h3 : ∀ c ∈ rest, isSizeOrOffset c = true) :
    (runCycle s (Call.setRenderedRange r :: rest)).2.countP isContentRendered
      = 1 ∧
    (runCycle s (Call.setRenderedRange r :: rest)).2.getLast? =
      some Event.contentRendered ∧
    (runCycle s (Call.setRenderedRange r :: rest)).1.renderedRange = r := by
  set s1 : VState :=
    {s with renderedRange := r, scheduledRendered := s.scheduledRendered + 1}
    with hs1
  have happ : applyCall s (Call.setRenderedRange r) =
      (s1, [Event.rangeEmit r, Event.markForCheck]) := by
    simp [applyCall, h1, hs1]
  have hrest := runCalls_sizeOffset rest s1 h3
  have hsch : (runCalls s1 rest).1.scheduledRendered = 1 := by
    rw [hrest.1, hs1]
    simp [h2]
  have hrr : (runCalls s1 rest).1.renderedRange = r := by
    rw [hrest.2.1, hs1]
  have hlog : (runCycle s (Call.setRenderedRange r :: rest)).2 =
      (Event.rangeEmit r :: Event.markForCheck :: ((runCalls s1 rest).2 ++
        (ngDoCheck (runCalls s1 rest).1).2)) ++ [Event.contentRendered] := by
    simp [runCycle, runCalls, happ, stabilize, hsch, List.append_assoc]
  refine ⟨?_, ?_, ?_⟩
  · rw [hlog]
    simp [List.countP_append, List.countP_cons, hrest.2.2,
      ngDoCheck_countP_contentRendered, isContentRendered]
  · rw [hlog]
    exact List.getLast?_concat _
  · simp [runCycle, runCalls, happ, stabilize, hrr]

theorem settle_then_notify_witness :
    (runCycle (initState Orientation.vertical)
        (Call.setRenderedRange ⟨0, 5⟩ ::
          [Call.setTotalContentSize 100,
           Call.setRenderedContentOffset 10 Edge.toStart])).2.countP
      isContentRendered = 1 ∧
    (runCycle (initState Orientation.vertical)
        (Call.setRenderedRange ⟨0, 5⟩ ::
          [Call.setTotalContentSize 100,
           Call.setRenderedContentOffset 10 Edge.toStart])).2.getLast? =
      some Event.contentRendered ∧
    (runCycle (initState Orientation.vertical)
        (Call.setRenderedRange ⟨0, 5⟩ ::
          [Call.setTotalContentSize 100,
           Call.setRenderedContentOffset 10 Edge.toStart])).1.renderedRange =
      ⟨0, 5⟩ :=
  settle_then_notify (initState Orientation.vertical) ⟨0, 5⟩
    [Call.setTotalContentSize 100, Call.setRenderedContentOffset 10 Edge.toStart]
    (by decide) rfl (by decide)

theorem scrollValues_cons_scroll (v : Int) (cs : List Call) :
    scrollValues (Call.setScrollOffset v :: cs) = v :: scrollValues cs := by
  simp [scrollValues, List.filterMap_cons]

theorem scrollValues_cons_range (r : ListRange) (cs : List Call) :
    scrollValues (Call.setRenderedRange r :: cs) = scrollValues cs := by
  simp [scrollValues, List.filterMap_cons]

theorem scrollValues_cons_size (sz : Int) (cs : List Call) :
    scrollValues (Call.setTotalContentSize sz :: cs) = scrollValues cs := by
  simp [scrollValues, List.filterMap_cons]

theorem scrollValues_cons_offset (off : Int) (e : Edge) (cs : List Call) :
    scrollValues (Call.setRenderedContentOffset off e :: cs) =
      scrollValues cs := by
  simp [scrollValues, List.filterMap_cons]

theorem applyCall_pending (s : VState) (c : Call) :
    (applyCall s c).1.pendingScrollOffset =
      match c with
      | .setScrollOffset v => some v
      | _ => s.pendingScrollOffset := by
  cases c <;> simp only [applyCall] <;> (try split) <;> rfl

theorem runCalls_pending_of_no_scroll (cs : List Call) (s : VState)
    (h : scrollValues cs = []) :
    (runCalls s cs).1.pendingScrollOffset = s.pendingScrollOffset := by
  induction cs generalizing s with
  | nil => simp [runCalls]
  | cons c cs ih =>
      cases c with
      | setScrollOffset v => simp [scrollValues_cons_scroll] at h
      | setRenderedRange r =>
          rw [scrollValues_cons_range] at h
          simp only [runCalls, ih _ h, applyCall_pending]
      | setTotalContentSize sz =>
          rw [scrollValues_cons_size] at h
          simp only [runCalls, ih _ h, applyCall_pending]
      | setRenderedContentOffset off e =>
          rw [scrollValues_cons_offset] at h
          simp only [runCalls, ih _ h, applyCall_pending]

theorem runCalls_pending_last_scroll (cs : List Call) (s : VState) (v : Int)
    (h : (scrollValues cs).getLast? = some v) :
    (runCalls s cs).1.pendingScrollOffset = some v := by
  induction cs generalizing s with
  | nil => simp [scrollValues] at h
  | cons c cs ih =>
      cases c with
      | setScrollOffset w =>
          rw [scrollValues_cons_scroll] at h
          cases h' : scrollValues cs with
          | nil =>
              rw [h'] at h
              simp only [List.getLast?] at h
              have hw : w = v := Option.some.inj h
              have hpend := runCalls_pending_of_no_scroll cs
                (applyCall s (Call.setScrollOffset w)).1 h'
              rw [runCalls, hpend, applyCall_pending, hw]
          | cons x xs =>
              rw [h', List.getLast?_cons_cons, ← h'] at h
              rw [runCalls]
              exact ih _ h
      | setRenderedRange r =>
          rw [scrollValues_cons_range] at h
          rw [runCalls]
          exact ih _ h
      | setTotalContentSize sz =>
          rw [scrollValues_cons_size] at h
          rw [runCalls]
          exact ih _ h
      | setRenderedContentOffset off e =>
          rw [scrollValues_cons_offset] at h
          rw [runCalls]
          exact ih _ h

/-- C2: within one check cycle, the mutation calls themselves perform no
physical scroll write; when the calls include at least one `setScrollOffset`
and the last scroll offset passed is `v`, the settled cycle performs exactly
one physical scroll write, and it writes `v`. -/
theorem single_flush (s : VState) (cs : List Call) (v : Int)
    (h : (scrollValues cs).getLast? = some v) :
    (runCalls s cs).2.filter isScrollWrite = [] ∧
    (runCycle s cs).2.filter isScrollWrite = [Event.scrollWrite v] := by
  refine ⟨runCalls_filter_scrollWrite cs s, ?_⟩
  have hp := runCalls_pending_last_scroll cs s v h
  simp [runCycle, List.filter_append, runCalls_filter_scrollWrite, stabilize,
    ngDoCheck, hp, replicate_filter_scrollWrite, isScrollWrite]

theorem single_flush_witness :
    (runCalls (initState Orientation.vertical)
        [Call.setScrollOffset 3, Call.setScrollOffset 9]).2.filter
      isScrollWrite = [] ∧
    (runCycle (initState Orientation.vertical)
        [Call.setScrollOffset 3, Call.setScrollOffset 9]).2.filter
      isScrollWrite = [Event.scrollWrite 9] :=
  single_flush (initState Orientation.vertical)
    [Call.setScrollOffset 3, Call.setScrollOffset 9] 9 (by decide)

theorem processEmits_countP (ls : List Nat) (s : VState)
    (h : s.lengthSubActive = true) :
    (processEmits s ls).2.countP isDataLengthChanged =
      countChanges s.dataLength ls := by
  induction ls generalizing s with
  | nil => simp [processEmits, countChanges]
  | cons l ls ih =>
      by_cases hl : l = s.dataLength
      · have hstep : step s (Act.dataEmit l) = (s, []) := by
          simp [step, h, hl]
        simp only [processEmits, hstep, List.countP_append]
        simp [countChanges, hl, ih s h]
      · have hstep : step s (Act.dataEmit l) =
            ({s with dataLength := l}, [Event.dataLengthChanged]) := by
          simp [step, h, hl]
        have hrec := ih {s with dataLength := l} h
        simp [processEmits, hstep, countChanges, hl, List.countP_cons,
          isDataLengthChanged, hrec]

/-- C5: over any sequence of emissions from the attached data stream, the
strategy callback `onDataLengthChanged` fires exactly once per change to a distinct
length value; an emission equal to the stored data length fires nothing and
leaves the state unchanged. -/
theorem length_change_dedup (s : VState) (ls : List Nat) (len : Nat)
    (h : s.lengthSubActive = true) :
    (processEmits s ls).2.countP isDataLengthChanged =
      countChanges s.dataLength ls ∧
    (len = s.dataLength → step s (Act.dataEmit len) = (s, [])) := by
  refine ⟨processEmits_countP ls s h, ?_⟩
  intro hl
  simp [step, h, hl]

theorem length_change_dedup_witness :
    (processEmits {initState Orientation.vertical with lengthSubActive := true}
        [4, 4, 7]).2.countP isDataLengthChanged = 2 ∧
    step {initState Orientation.vertical with lengthSubActive := true}
        (Act.dataEmit 0) =
      ({initState Orientation.vertical with lengthSubActive := true}, []) :=
  ⟨(length_change_dedup _ [4, 4, 7] 0 rfl).1,
   (length_change_dedup _ [4, 4, 7] 0 rfl).2 rfl⟩

end VirtualScroll
